import Mathlib

/-!
Verification of the staged financial-news pipeline
(`src/agents/*.py`, `src/utils/pdf_generator.py`).

The Python code is shallowly embedded: strings are `String`/`List Char`,
Python dictionaries become association lists inside an inductive `Value`
type, external services (search providers, LLM calls, Telegram, PDF
rendering) become oracle parameters, and every function is translated
statement by statement from the source.  Python string operations
(`split`, `strip`, `startswith`, slicing, `in`) are modelled by the
executable helpers below; `str.split()`/`str.strip()` treat the ASCII
whitespace characters handled by `Char.isWhitespace`, which covers every
string the repository manipulates.
-/

namespace FinPipe

/-! ## Python string primitives -/

/-- Whitespace test used by Python `str.split()` / `str.strip()`. -/
def pyIsSpace (c : Char) : Bool := c.isWhitespace

/-- Python `s.strip()` on a character list. -/
def stripChars (s : List Char) : List Char :=
  ((s.dropWhile pyIsSpace).reverse.dropWhile pyIsSpace).reverse

/-- Python `s.strip()` on a `String`. -/
def pyStrip (s : String) : String := ⟨stripChars s.data⟩

/-- Worker for `pySplitWs`: `cur` is the current word, reversed. -/
def wordsAux (cur : List Char) : List Char → List (List Char)
  | [] => if cur = [] then [] else [cur.reverse]
  | c :: rest =>
    if pyIsSpace c then
      if cur = [] then wordsAux [] rest else cur.reverse :: wordsAux [] rest
    else wordsAux (c :: cur) rest

/-- Python `s.split()` (no argument): split on whitespace runs, dropping
empty pieces. -/
def pySplitWs (s : List Char) : List (List Char) := wordsAux [] s

/-- Python `len(s.split())`, the word count used by the summary stage. -/
def wordCount (s : String) : Nat := (pySplitWs s.data).length

/-- Helper: prepend a character to the first piece of a split result. -/
def consHead (c : Char) : List (List Char) → List (List Char)
  | [] => [[c]]
  | h :: t => (c :: h) :: t

/-- Worker for `pySplitOn`, fuelled: Python `s.split(sep)` for a fixed
non-empty separator, scanning left to right over non-overlapping
occurrences and keeping empty pieces.  The fuel (always instantiated
with the input length, enough for a non-empty separator) only serves
termination. -/
def splitOnAux (sep : List Char) : Nat → List Char → List (List Char)
  | 0, s => if s.isEmpty then [[]] else [s]
  | _ + 1, [] => [[]]
  | n + 1, c :: rest =>
    if sep.isPrefixOf (c :: rest) then
      [] :: splitOnAux sep n ((c :: rest).drop sep.length)
    else consHead c (splitOnAux sep n rest)

/-- Python `s.split(sep)` for a non-empty separator. -/
def pySplitOn (sep : List Char) (s : List Char) : List (List Char) :=
  splitOnAux sep s.length s

/-- Python `sep.join(parts)` on character lists. -/
def joinWith (sep : List Char) : List (List Char) → List Char
  | [] => []
  | [x] => x
  | x :: xs => x ++ sep ++ joinWith sep xs

/-- Python `" ".join(words)`. -/
def joinSpace : List (List Char) → List Char := joinWith [' ']

/-- Python `list.insert(i, x)`: insert before position `i`, clamping to
the end of the list. -/
def pyInsert (i : Nat) (x : α) : List α → List α
  | [] => [x]
  | h :: t =>
    match i with
    | 0 => x :: h :: t
    | n + 1 => h :: pyInsert n x t

/-- Python `s.lower()` (ASCII case fold, which is all the source uses). -/
def pyLower (s : String) : String := ⟨s.data.map Char.toLower⟩

/-- Occurrence of `sub` as a contiguous sublist of `s`. -/
def isSubList (sub : List Char) : List Char → Bool
  | [] => sub.isEmpty
  | c :: rest => sub.isPrefixOf (c :: rest) || isSubList sub rest

/-- Python `sub in s` substring test. -/
def pyContains (s sub : String) : Bool := isSubList sub.data s.data

/-- Python `s.startswith(p)`. -/
def pyStartsWith (s p : String) : Bool := p.data.isPrefixOf s.data

/-- Python `s.endswith(p)`. -/
def pyEndsWith (s p : String) : Bool := p.data.isSuffixOf s.data

/-! ## The dynamic payload values handed between stages

Upstream contexts in the source are Python objects: `None`, strings,
dictionaries, or lists.  Image descriptors always travel as a list of
four-string records built by the formatting agent, so they are kept as a
dedicated structure. -/

/-- An image descriptor `{url, title, source, search_term}` as built by
`FormattingAgent`. -/
structure ImageD where
  url : String
  title : String
  source : String
  search_term : String
deriving DecidableEq, Repr

/-- A Python value as handed between stages: `None`, a string, a list of
image descriptors, a dict, or a list. -/
inductive Value where
  | vnone : Value
  | vstr : String → Value
  | vimgs : List ImageD → Value
  | vdict : List (String × Value) → Value
  | vlist : List Value → Value

/-- Python truthiness for the values above (`if not context: ...`). -/
def truthy : Value → Bool
  | .vnone => false
  | .vstr s => !s.isEmpty
  | .vimgs l => !l.isEmpty
  | .vdict f => !f.isEmpty
  | .vlist l => !l.isEmpty

/-- `isinstance(v, dict)`. -/
def isDict : Value → Bool
  | .vdict _ => true
  | _ => false

/-- Python `key in d` for a dict value (false on non-dicts). -/
def hasKey (key : String) : Value → Bool
  | .vdict f => (f.lookup key).isSome
  | _ => false

/-- Python `d.get(key, default)` restricted to string fields: the source
only ever reads string-valued fields this way. -/
def getStrD (d : Value) (key : String) (dflt : String) : String :=
  match d with
  | .vdict f =>
    match f.lookup key with
    | some (.vstr s) => s
    | some _ => dflt
    | none => dflt
  | _ => dflt

/-- Python `d.get('images', [])`: the images field as a descriptor list. -/
def getImgs (d : Value) : List ImageD :=
  match d with
  | .vdict f =>
    match f.lookup "images" with
    | some (.vimgs l) => l
    | _ => []
  | _ => []

/-- Python `d.get('news_data', [])`: the news list (a list of record
values). -/
def getNewsData (d : Value) : List Value :=
  match d with
  | .vdict f =>
    match f.lookup "news_data" with
    | some (.vlist l) => l
    | _ => []
  | _ => []

/-! ## Stage Context Protocol: the `_extract_*_data` helpers

`FormattingAgent._extract_summary_data`,
`TranslatingAgent._extract_formatted_data` and
`SendAgent._extract_formatted_data` are textually identical up to the
required key, so they share one embedding parametrised by the key.
`SummaryAgent._extract_search_data` differs in the list branch and gets
its own embedding. -/

/-- `_extract_summary_data` / `_extract_formatted_data`: `None` on a
falsy context; a dict context is returned as is; a list context yields
its first element that is a dict containing `key`. -/
def extractByKey (key : String) (ctx : Value) : Option Value :=
  if ¬ truthy ctx then none
  else
    match ctx with
    | .vdict f => some (.vdict f)
    | .vlist items => items.find? (fun it => isDict it && hasKey key it)
    | _ => none

/-- `FormattingAgent._extract_summary_data` (`src/agents/formatting_agent.py`). -/
def extractSummaryData (ctx : Value) : Option Value := extractByKey "summary" ctx

/-- `TranslatingAgent._extract_formatted_data` and the identical
`SendAgent._extract_formatted_data`. -/
def extractFormattedData (ctx : Value) : Option Value :=
  extractByKey "formatted_summary" ctx

/-- `SummaryAgent._extract_search_data` (`src/agents/summary_agent.py`):
a dict context is returned as is; a non-empty list yields its first
element if that element is a dict, else `None`. -/
def extractSearchData (ctx : Value) : Option Value :=
  if ¬ truthy ctx then none
  else
    match ctx with
    | .vdict f => some (.vdict f)
    | .vlist (x :: _) => if isDict x then some x else none
    | _ => none

/-! ## Image Resolver (`FormattingAgent`)

External search APIs are oracles: `api term` is `none` when the HTTP
request for that term raises (network error, bad status, timeout) and
`some rs` with the decoded response rows otherwise.  A raised request
aborts the whole provider helper through its `except` branch, which
returns `[]`. -/

/-- One row of a Serper image response: `imageUrl` (via
`img.get('imageUrl', '')`) and the optional `title`. -/
structure SerperImg where
  imageUrl : String
  title : Option String
deriving DecidableEq, Repr

/-- One row of a Tavily search response: its `images` URL list. -/
structure TavilyRes where
  images : List String
deriving DecidableEq, Repr

/-- Model of `urllib.parse.urlparse` scheme splitting: a scheme is a
leading alphabetic-then-alphanumeric/`+`/`-`/`.` run followed by `:`.
Returns `(scheme lowered, rest)`, or keeps the input whole when no valid
scheme prefix exists. -/
def urlSchemeSplit (s : List Char) : List Char × List Char :=
  let pre := s.takeWhile (fun c => c ≠ ':')
  if pre.length < s.length ∧ pre ≠ [] ∧
      (pre.headD 'a').isAlpha ∧
      pre.all (fun c => c.isAlphanum || c = '+' || c = '-' || c = '.') then
    (pre.map Char.toLower, s.drop (pre.length + 1))
  else ([], s)

/-- Model of `urllib.parse.urlparse(...).netloc`: present only when the
part after the scheme starts with `//`, extending to the next `/`, `?`
or `#`. -/
def urlNetloc (rest : List Char) : List Char :=
  if ['/', '/'].isPrefixOf rest then
    (rest.drop 2).takeWhile (fun c => c ≠ '/' ∧ c ≠ '?' ∧ c ≠ '#')
  else []

/-- The known image extensions of `_is_valid_image_url`. -/
def imageExtensions : List String :=
  [".jpg", ".jpeg", ".png", ".gif", ".svg", ".webp"]

/-- `FormattingAgent._is_valid_image_url`: non-empty, parses with a
scheme and a netloc, and (lower-cased) either ends in a known image
extension or contains the substring "image". -/
def isValidImageUrl (url : String) : Bool :=
  if url.isEmpty then false
  else
    let (scheme, rest) := urlSchemeSplit url.data
    if scheme.isEmpty || (urlNetloc rest).isEmpty then false
    else
      imageExtensions.any (fun ext => pyEndsWith (pyLower url) ext) ||
        pyContains (pyLower url) "image"

/-- The fixed financial-keyword vocabulary of `_extract_search_terms`. -/
def financialTerms : List String :=
  ["stock market", "trading", "earnings", "S&P 500", "Dow Jones",
   "NASDAQ", "NYSE", "futures", "commodities", "bonds", "forex",
   "cryptocurrency", "bitcoin", "market chart", "financial graph"]

/-- `FormattingAgent._extract_search_terms`: keep the vocabulary terms
occurring in the lower-cased summary (note the source compares the
unlowered term against the lowered text), fall back to two fixed terms,
and keep at most 3. -/
def extractSearchTerms (summary_text : String) : List String :=
  let lower := pyLower summary_text
  let found := financialTerms.filter (fun t => pyContains lower t)
  let terms := if found.isEmpty then ["stock market chart", "financial market graph"]
               else found
  terms.take 3

/-- Loop of `_search_images_serper`: one request per term (at most 2
terms), harvesting at most the first response image per term when its
URL passes `_is_valid_image_url`.  A raised request (`none`) discards
everything via the enclosing `except`. -/
def serperLoop (api : String → Option (List SerperImg)) :
    List String → List ImageD → List ImageD
  | [], acc => acc
  | t :: ts, acc =>
    match api t with
    | none => []
    | some rows =>
      let harvested := (rows.take 1).filterMap (fun img =>
        if isValidImageUrl img.imageUrl then
          some ⟨img.imageUrl, img.title.getD t, "Serper", t⟩
        else none)
      serperLoop api ts (acc ++ harvested)

/-- `FormattingAgent._search_images_serper`. -/
def searchImagesSerper (api : String → Option (List SerperImg))
    (search_terms : List String) : List ImageD :=
  serperLoop api (search_terms.take 2) []

/-- Loop of `_search_images_tavily`: one request per term (at most 2
terms); from the first result row, the first listed image URL is kept
when valid.  A raised request discards everything. -/
def tavilyLoop (api : String → Option (List TavilyRes)) :
    List String → List ImageD → List ImageD
  | [], acc => acc
  | t :: ts, acc =>
    match api t with
    | none => []
    | some rows =>
      let harvested := (rows.take 1).filterMap (fun r =>
        match r.images with
        | [] => none
        | imgUrl :: _ =>
          if isValidImageUrl imgUrl then
            some ⟨imgUrl, "Financial Chart - " ++ t, "Tavily", t⟩
          else none)
      tavilyLoop api ts (acc ++ harvested)

/-- `FormattingAgent._search_images_tavily`. -/
def searchImagesTavily (api : String → Option (List TavilyRes))
    (search_terms : List String) : List ImageD :=
  tavilyLoop api (search_terms.take 2) []

/-- `FormattingAgent._get_fallback_images`: the fixed 2-entry static
fallback set. -/
def getFallbackImages : List ImageD :=
  [⟨"https://via.placeholder.com/600x400/0066cc/ffffff?text=Stock+Market+Chart",
    "Stock Market Performance Chart", "Fallback", "stock market"⟩,
   ⟨"https://via.placeholder.com/600x400/009900/ffffff?text=Trading+Volume+Graph",
    "Trading Volume Analysis", "Fallback", "trading volume"⟩]

/-- `FormattingAgent._find_financial_images`: Serper when configured,
Tavily when configured and fewer than 2 images so far, the static
fallback set when still fewer than 2, then truncation to 2. -/
def findFinancialImages (serperKey tavilyKey : Bool)
    (serperApi : String → Option (List SerperImg))
    (tavilyApi : String → Option (List TavilyRes))
    (summary_text : String) : List ImageD :=
  let search_terms := extractSearchTerms summary_text
  let images := if serperKey then searchImagesSerper serperApi search_terms else []
  let images := if tavilyKey ∧ images.length < 2 then
      images ++ searchImagesTavily tavilyApi search_terms
    else images
  let images := if images.length < 2 then images ++ getFallbackImages else images
  images.take 2

/-! ## Summarization stage (`SummaryAgent`)

The LLM call is an oracle `llm : String → Option String`, applied to the
prepared news content: `none` models a raised `completion` call (routed
to `_create_manual_summary`), `some raw` the response text before
`.strip()`.  The non-deterministic `timestamp` fields of the payloads
are elided throughout. -/

/-- Payload of `SummaryAgent.create_summary` (timestamp elided). -/
structure SummaryPayload where
  summary : String
  word_count : Nat
  source_count : Nat
  status : Option String
  error : Option String
deriving DecidableEq, Repr

/-- One numbered block of `_prepare_news_content`. -/
def newsBlock (i : Nat) (item : Value) : String :=
  let title := getStrD item "title" "No title"
  let content := getStrD item "content" "No content"
  let source := getStrD item "source" "Unknown"
  toString i ++ ". " ++ title ++ "\n   Source: " ++ source ++
    "\n   Summary: " ++ content ++ "\n"

/-- `SummaryAgent._prepare_news_content`: the fixed string on empty news,
else the `"\n"`-joined numbered blocks of the first 10 items. -/
def prepareNewsContent (search_data : Value) : String :=
  let news_items := getNewsData search_data
  if news_items.isEmpty then "No recent financial news available."
  else
    let blocks := (List.enumFrom 1 (news_items.take 10)).map
      (fun p => (newsBlock p.1 p.2).data)
    ⟨joinWith "\n".data blocks⟩

/-- The 500-word cap of `_generate_llm_summary`: if the stripped LLM text
has more than 500 words, keep the first 500 joined by single spaces and
append `"..."`. -/
def capWords (s : String) : String :=
  let words := pySplitWs s.data
  if words.length > 500 then ⟨joinSpace (words.take 500) ++ "...".data⟩
  else s

/-- `SummaryAgent._create_manual_summary`: bullet the first 5 headline
lines (non-blank lines not starting with three spaces) of the prepared
news content.  The bullet text `"â€¢"` is copied byte-for-byte from the
source file. -/
def createManualSummary (news_content : String) : String :=
  let lines := pySplitOn "\n".data news_content.data
  let headlines := lines.filter
    (fun l => !(stripChars l).isEmpty && !("   ".data.isPrefixOf l))
  let bullets := (headlines.take 5).map (fun h =>
    if (stripChars h).isEmpty then []
    else "â€¢ ".data ++ stripChars h ++ "\n".data)
  ⟨"Financial Market Summary:\n\nKey developments in today\x27s market:\n".data
    ++ bullets.flatten
    ++ "\nThis summary was generated from available financial news sources.".data⟩

/-- `SummaryAgent._generate_llm_summary`: strip and cap the LLM response,
or fall back to the manual summary when the call raises. -/
def generateLlmSummary (llm : String → Option String)
    (news_content : String) : String :=
  match llm news_content with
  | some raw => capWords (pyStrip raw)
  | none => createManualSummary news_content

/-- `SummaryAgent._create_fallback_summary`. -/
def fallbackSummary : SummaryPayload :=
  { summary := "Unable to generate market summary due to lack of available financial news data. Please check your news data sources and API connections."
    word_count := 0
    source_count := 0
    status := some "fallback"
    error := none }

/-- `SummaryAgent.create_summary`: extract the search data, fall back
when it is absent or falsy, else summarize the prepared news content. -/
def createSummary (llm : String → Option String) (ctx : Value) :
    SummaryPayload :=
  match extractSearchData ctx with
  | none => fallbackSummary
  | some search_data =>
    if ¬ truthy search_data then fallbackSummary
    else
      let news_content := prepareNewsContent search_data
      let summary := generateLlmSummary llm news_content
      { summary := summary
        word_count := wordCount summary
        source_count := (getNewsData search_data).length
        status := none
        error := none }

/-! ## Formatting stage (`FormattingAgent`) -/

/-- Payload of `FormattingAgent.format_content` (timestamp elided). -/
structure FormattedPayload where
  formatted_summary : String
  images : List ImageD
  original_summary : String
  status : Option String
  error : Option String
deriving DecidableEq, Repr

/-- The inline marker block `f"\n\n[Chart: {title}]\n{url}\n"` of
`_insert_images_in_summary`. -/
def imageText (img : ImageD) : String :=
  "\n\n[Chart: " ++ img.title ++ "]\n" ++ img.url ++ "\n"

/-- `FormattingAgent._insert_images_in_summary`: split on blank lines,
insert the first marker at position 1, insert the second at the middle
when the list (after the first insertion) has at least 3 entries and a
second image exists, and re-join with blank lines. -/
def insertImagesInSummary (summary_text : String) (images : List ImageD) :
    String :=
  match images with
  | [] => summary_text
  | img1 :: restImages =>
    let paragraphs := pySplitOn "\n\n".data summary_text.data
    let paragraphs :=
      if paragraphs.length ≥ 1 then
        pyInsert 1 (imageText img1).data paragraphs
      else paragraphs
    let paragraphs :=
      match restImages with
      | img2 :: _ =>
        if paragraphs.length ≥ 3 then
          pyInsert (paragraphs.length / 2) (imageText img2).data paragraphs
        else paragraphs
      | [] => paragraphs
    ⟨joinWith "\n\n".data paragraphs⟩

/-- `FormattingAgent._create_fallback_formatted_content`. -/
def fallbackFormatted : FormattedPayload :=
  { formatted_summary := "Unable to format content due to missing summary data."
    images := []
    original_summary := ""
    status := some "fallback"
    error := none }

/-- `FormattingAgent.format_content`: extract the summary record, fall
back when absent or falsy, else resolve images and insert them. -/
def formatContent (serperKey tavilyKey : Bool)
    (serperApi : String → Option (List SerperImg))
    (tavilyApi : String → Option (List TavilyRes))
    (ctx : Value) : FormattedPayload :=
  match extractSummaryData ctx with
  | none => fallbackFormatted
  | some summary_data =>
    if ¬ truthy summary_data then fallbackFormatted
    else
      let summary_text := getStrD summary_data "summary" ""
      let images := findFinancialImages serperKey tavilyKey serperApi tavilyApi
        summary_text
      { formatted_summary := insertImagesInSummary summary_text images
        images := images
        original_summary := summary_text
        status := none
        error := none }

/-! ## Translation stage (`TranslatingAgent`)

The LLM translation call is an oracle `translator content lang_code`:
`none` models a raised `completion` call (routed to
`_create_fallback_translation`), `some raw` the response before
`.strip()`. -/

/-- One per-language entry of the translations dict. -/
structure TranslationEntry where
  language : String
  content : String
  images : List ImageD
  status : Option String
  error : Option String
deriving DecidableEq, Repr

/-- Payload of `TranslatingAgent.translate_content` (timestamp elided);
`translations` keeps the dict's insertion order hindi, arabic, hebrew. -/
structure TranslationsPayload where
  original_content : String
  translations : List (String × TranslationEntry)
  images : List ImageD
  status : Option String
  error : Option String
deriving DecidableEq, Repr

/-- `TranslatingAgent.target_languages`, in insertion order. -/
def targetLanguages : List (String × String) :=
  [("hindi", "हिन्दी"), ("arabic", "العربية"), ("hebrew", "עברית")]

/-- The fixed per-language notices of `_create_fallback_translation`,
keyed by the native language name. -/
def fallbackMessages : List (String × String) :=
  [("हिन्दी", "वित्तीय बाजार सारांश - अनुवाद सेवा अनुपलब्ध"),
   ("العربية", "ملخص السوق المالي - خدمة الترجمة غير متاحة"),
   ("עברית", "סיכום שוק פיננסי - שירות תרגום לא זמין")]

/-- `TranslatingAgent._create_fallback_translation`. -/
def createFallbackTranslation (original_content lang_name : String) : String :=
  let msg := (fallbackMessages.lookup lang_name).getD
    "Financial Market Summary - Translation service unavailable"
  msg ++ "\n\n[Original Content]\n" ++ original_content

/-- `TranslatingAgent._translate_to_language`: the stripped oracle
response, or the per-language fallback text when the call raises. -/
def translateToLanguage (translator : String → String → Option String)
    (content lang_code lang_name : String) : String :=
  match translator content lang_code with
  | some raw => pyStrip raw
  | none => createFallbackTranslation content lang_name

/-- `TranslatingAgent._create_fallback_translations`: the bundle returned
when no formatted content is available. -/
def fallbackTranslations : TranslationsPayload :=
  { original_content := ""
    translations := targetLanguages.map (fun p =>
      (p.1, { language := p.2
              content := "No content available for translation."
              images := []
              status := some "fallback"
              error := none }))
    images := []
    status := some "fallback"
    error := none }

/-- `TranslatingAgent.translate_content`: extract the formatted record,
fall back when absent or falsy, else translate into each target
language (`_translate_to_language` never raises, so each entry carries
no error field). -/
def translateContent (translator : String → String → Option String)
    (ctx : Value) : TranslationsPayload :=
  match extractFormattedData ctx with
  | none => fallbackTranslations
  | some formatted_data =>
    if ¬ truthy formatted_data then fallbackTranslations
    else
      let formatted_summary := getStrD formatted_data "formatted_summary" ""
      let images := getImgs formatted_data
      { original_content := formatted_summary
        translations := targetLanguages.map (fun p =>
          (p.1, { language := p.2
                  content := translateToLanguage translator formatted_summary p.1 p.2
                  images := images
                  status := none
                  error := none }))
        images := images
        status := none
        error := none }

/-! ## Distribution stage (`SendAgent`)

Oracles: `pdfGen` is the outcome of `PDFGenerator.create_report` (`some
path` on success, `none` when it raises, the failure `_create_pdf_report`
converts into `success=False`); `msgApi text` is the Telegram
`sendMessage` outcome for the given text (`none` = request raised,
`some (ok, id)` = decoded response); `imgApi` is the per-image
`sendPhoto` outcome, whose return value the source discards; `today` is
the formatted current date of the message header. -/

/-- Payload of `SendAgent.distribute_report` (timestamp elided). -/
structure DistributionPayload where
  pdf_created : Bool
  pdf_path : String
  telegram_sent : Bool
  telegram_message_id : String
  content_type : String
  images_included : Nat
  status : Option String
  error : Option String
  message : Option String
deriving DecidableEq, Repr

/-- `SendAgent._create_pdf_report`: `(success, file_path)`. -/
def createPdfReport (pdfGen : Option String) : Bool × String :=
  match pdfGen with
  | some path => (true, path)
  | none => (false, "")

/-- `SendAgent._send_telegram_message`: `(success, message_id)`; success
requires a non-raising request with a truthy `ok` field. -/
def sendTelegramMessage (msgApi : String → Option (Bool × String))
    (text : String) : Bool × String :=
  match msgApi text with
  | none => (false, "")
  | some (ok, message_id) => if ok then (true, message_id) else (false, "")

/-- The Telegram message body built by `_send_to_telegram`: header with
the current date, then the formatted summary truncated to its first
2000 characters with `"..."` when longer. -/
def telegramMessage (today formatted_summary : String) : String :=
  let header := "📈 *Financial Market Summary*\n" ++ "📅 " ++ today ++ "\n\n"
  if formatted_summary.length > 2000 then
    header ++ ⟨formatted_summary.data.take 2000⟩ ++ "...\n\n"
  else header ++ formatted_summary ++ "\n\n"

/-- `SendAgent._send_to_telegram`: `(success, message_id)`.  Without
credentials nothing is sent.  The main message is sent first; the
per-image `sendPhoto` results are computed for the first 2 images and
discarded, exactly as the source ignores `_send_telegram_image`'s return
value (that helper catches its own failures and never raises). -/
def sendToTelegram (hasCreds : Bool) (today : String)
    (msgApi : String → Option (Bool × String)) (imgApi : ImageD → Bool)
    (formatted_data : Value) : Bool × String :=
  if ¬ hasCreds then (false, "")
  else
    let formatted_summary := getStrD formatted_data "formatted_summary" ""
    let images := getImgs formatted_data
    let main_result := sendTelegramMessage msgApi
      (telegramMessage today formatted_summary)
    let _ := (images.take 2).map imgApi
    (main_result.1, main_result.2)

/-- `SendAgent._create_fallback_distribution`. -/
def fallbackDistribution : DistributionPayload :=
  { pdf_created := false
    pdf_path := ""
    telegram_sent := false
    telegram_message_id := ""
    content_type := "English-only"
    images_included := 0
    status := some "fallback"
    error := none
    message := some "No formatted data available for distribution" }

/-- `SendAgent.distribute_report`: extract the formatted record, fall
back when absent or falsy, else create the PDF and send to Telegram
independently and report both outcomes. -/
def distributeReport (pdfGen : Option String) (hasCreds : Bool)
    (today : String) (msgApi : String → Option (Bool × String))
    (imgApi : ImageD → Bool) (ctx : Value) : DistributionPayload :=
  match extractFormattedData ctx with
  | none => fallbackDistribution
  | some formatted_data =>
    if ¬ truthy formatted_data then fallbackDistribution
    else
      let pdf_result := createPdfReport pdfGen
      let telegram_result := sendToTelegram hasCreds today msgApi imgApi
        formatted_data
      { pdf_created := pdf_result.1
        pdf_path := pdf_result.2
        telegram_sent := telegram_result.1
        telegram_message_id := telegram_result.2
        content_type := "English-only"
        images_included := (getImgs formatted_data).length
        status := none
        error := none
        message := none }

/-! ## Document Assembler (`PDFGenerator`)

`_split_content_by_images` splits on the regex `(\[Chart:.*?\])` with
`re.split`, keeping the captured markers.  Since the pattern starts with
the literal `[Chart:`, a match begins exactly at an occurrence of that
literal and, `.` not matching newlines and `.*?` being lazy, extends to
the first `]` that follows with no intervening newline.  `scanChartBody`
and `chartSplitAux` implement that scan directly. -/

/-- Scan for the closing `]` of a `[Chart: ...]` marker: returns the
body before `]` and the rest after it, failing at a newline or the end
of input (where the regex cannot match). -/
def scanChartBody : List Char → Option (List Char × List Char)
  | [] => none
  | c :: rest =>
    if c = ']' then some ([], rest)
    else if c = '\n' then none
    else (scanChartBody rest).map (fun p => (c :: p.1, p.2))

/-- Fuelled worker of `re.split(r'(\[Chart:.*?\])', content)`: `cur` is
the prose accumulated since the last marker.  The fuel (instantiated
with the input length) only serves termination. -/
def chartSplitAux : Nat → List Char → List Char → List (List Char)
  | 0, cur, s => [cur ++ s]
  | _ + 1, cur, [] => [cur]
  | n + 1, cur, c :: rest =>
    if "[Chart:".data.isPrefixOf (c :: rest) then
      match scanChartBody ((c :: rest).drop 7) with
      | some (body, r) =>
        cur :: ("[Chart:".data ++ body ++ [']']) :: chartSplitAux n [] r
      | none => chartSplitAux n (cur ++ [c]) rest
    else chartSplitAux n (cur ++ [c]) rest

/-- `re.split(r'(\[Chart:.*?\])', content)`: the raw segment list,
prose and markers interleaved, before any filtering. -/
def chartSplitRaw (content : String) : List (List Char) :=
  chartSplitAux content.data.length [] content.data

/-- `PDFGenerator._split_content_by_images`: the raw segments with the
whitespace-only ones discarded (`if part.strip()`). -/
def splitContentByImages (content : String) : List String :=
  ((chartSplitRaw content).filter (fun p => !(stripChars p).isEmpty)).map
    (fun p => ⟨p⟩)

/-- Concatenation of returned segments, for the round-trip property. -/
def joinSegments (parts : List String) : String :=
  ⟨(parts.map String.data).flatten⟩

/-- One element appended to the ReportLab story by `PDFGenerator`:
headings, body paragraphs (`normal_style`), italic lines, spacers, and
embedded images. -/
inductive StoryElem where
  | heading : String → StoryElem
  | para : String → StoryElem
  | italic : String → StoryElem
  | spacer : StoryElem
  | image : String → StoryElem
deriving DecidableEq, Repr

/-- Is the element a body paragraph? -/
def isPara : StoryElem → Bool
  | .para _ => true
  | _ => false

/-- Is the element an inline chart placeholder line (an italic line
wrapping a `[Chart: ...]` marker)? -/
def isPlaceholder : StoryElem → Bool
  | .italic t => pyStartsWith t "<i>[Chart:"
  | _ => false

/-- `PDFGenerator._add_image_to_story` with the whole
fetch/decode/resize/embed attempt as the oracle `fetch`: placeholder
hosts and empty URLs render the fixed "(Chart not available)" italic
line; a failed fetch renders "(Image could not be loaded)"; a successful
one embeds the image under its caption.  The captions are copied
byte-for-byte from the source (whose emoji are mojibake). -/
def addImageToStory (fetch : String → Bool) (img : ImageD) :
    List StoryElem :=
  if img.url.isEmpty || pyContains (pyLower img.url) "placeholder" then
    [.italic ("ðŸ“Š " ++ img.title ++ " (Chart not available)"), .spacer]
  else if fetch img.url then
    [.italic ("ðŸ“Š " ++ img.title), .spacer, .image img.title, .spacer]
  else
    [.italic ("ðŸ“Š " ++ img.title ++ " (Image could not be loaded)"), .spacer]

/-- Story elements emitted for one segment of the split content: marker
segments become an italic placeholder line, other segments are split on
blank lines into stripped body paragraphs. -/
def partElems (part : String) : List StoryElem :=
  if pyStartsWith part "[Chart:" then
    [.italic ("<i>" ++ part ++ "</i>"), .spacer]
  else if !(pyStrip part).isEmpty then
    (pySplitOn "\n\n".data part.data).flatMap (fun para =>
      if !(stripChars para).isEmpty then [.para ⟨stripChars para⟩, .spacer]
      else [])
  else []

/-- `PDFGenerator._add_formatted_content`: section heading, the split
formatted summary, then the "Related Charts" section for the images
list. -/
def addFormattedContent (fetch : String → Bool)
    (formatted_summary : String) (images : List ImageD) : List StoryElem :=
  [.heading "ðŸ“ˆ Financial Market Summary", .spacer]
    ++ (if formatted_summary.isEmpty then []
        else (splitContentByImages formatted_summary).flatMap partElems)
    ++ (if images.isEmpty then []
        else [.spacer, .heading "ðŸ“Š Related Charts and Graphs", .spacer]
          ++ images.flatMap (addImageToStory fetch))

/-! ## Concrete inputs used by scenario theorems and witnesses -/

/-- The spec's scenario input for the Document Assembler. -/
def scenarioText : String :=
  "S&P 500 fell 2% today.\n\n[Chart: S&P 500 Daily]\nhttp://x/img.png\n\nMarkets closed early."

/-- A long run of 501 single-character words, for the truncation
witnesses. -/
def longRun : String := ⟨joinSpace (List.replicate 501 ['w'])⟩

/-- One 101-word headline line. -/
def line101 : List Char := joinSpace (List.replicate 101 ['w'])

/-- A prepared news content of 5 headline lines of 101 words each:
505 words feeding the manual summary path. -/
def bigNews : String := ⟨joinWith "\n".data (List.replicate 5 line101)⟩

/-! ## Supporting lemmas -/

/-- Appending the static fallback set when below 2 and truncating to 2
always leaves exactly 2 images. -/
lemma topUp_take_two (l : List ImageD) :
    ((if l.length < 2 then l ++ getFallbackImages else l).take 2).length = 2 := by
  have hfb : getFallbackImages.length = 2 := rfl
  split
  · simp only [List.length_take, List.length_append, hfb]
    omega
  · simp only [List.length_take]
    omega

/-- Every image harvested by the Serper loop passed
`_is_valid_image_url`, provided the accumulator did. -/
lemma serperLoop_valid (api : String → Option (List SerperImg)) :
    ∀ (ts : List String) (acc : List ImageD),
      (∀ i ∈ acc, isValidImageUrl i.url = true) →
      ∀ img ∈ serperLoop api ts acc, isValidImageUrl img.url = true := by
  intro ts
  induction ts with
  | nil => intro acc hacc img hmem; exact hacc img hmem
  | cons t ts ih =>
    intro acc hacc img hmem
    simp only [serperLoop] at hmem
    cases hapi : api t with
    | none => rw [hapi] at hmem; simp at hmem
    | some rows =>
      rw [hapi] at hmem
      refine ih _ ?_ img hmem
      intro i hi
      rcases List.mem_append.mp hi with h | h
      · exact hacc i h
      · rcases List.mem_filterMap.mp h with ⟨r, _, hr⟩
        split at hr
        · cases hr
          assumption
        · simp at hr

/-- Every image harvested by the Tavily loop passed
`_is_valid_image_url`, provided the accumulator did. -/
lemma tavilyLoop_valid (api : String → Option (List TavilyRes)) :
    ∀ (ts : List String) (acc : List ImageD),
      (∀ i ∈ acc, isValidImageUrl i.url = true) →
      ∀ img ∈ tavilyLoop api ts acc, isValidImageUrl img.url = true := by
  intro ts
  induction ts with
  | nil => intro acc hacc img hmem; exact hacc img hmem
  | cons t ts ih =>
    intro acc hacc img hmem
    simp only [tavilyLoop] at hmem
    cases hapi : api t with
    | none => rw [hapi] at hmem; simp at hmem
    | some rows =>
      rw [hapi] at hmem
      refine ih _ ?_ img hmem
      intro i hi
      rcases List.mem_append.mp hi with h | h
      · exact hacc i h
      · rcases List.mem_filterMap.mp h with ⟨r, _, hr⟩
        split at hr
        · simp at hr
        · split at hr
          · cases hr
            assumption
          · simp at hr

/-! ## C5: Stage Context Protocol extraction -/

/-- C5 (counterexample): the claim states that a single record is
returned only if it contains the stage's required key; but
`_extract_summary_data` returns a dict context unconditionally, so a
record without `summary` is returned rather than rejected. -/
theorem extract_singleRecord_counterexample :
    ¬ (extractSummaryData (.vdict [("a", .vstr "1")]) =
          some (.vdict [("a", .vstr "1")]) →
        hasKey "summary" (.vdict [("a", .vstr "1")]) = true) := by
  intro h
  exact absurd (h rfl) (by decide)

/-- C5 (amended): a single non-empty record is returned unconditionally
(no key check); a non-empty sequence yields, for the formatting /
translating / send extractors, the first element that is a record
containing the required key; the summary extractor instead returns the
first element exactly when it is a record, never scanning further. -/
theorem stage_extraction_amended :
    (∀ (k : String) (f : List (String × Value)), f ≠ [] →
      extractByKey k (.vdict f) = some (.vdict f)) ∧
    (∀ (k : String) (items : List Value), items ≠ [] →
      extractByKey k (.vlist items) =
        items.find? (fun it => isDict it && hasKey k it)) ∧
    (∀ (x : Value) (xs : List Value),
      extractSearchData (.vlist (x :: xs)) =
        if isDict x then some x else none) ∧
    (∀ (f : List (String × Value)), f ≠ [] →
      extractSearchData (.vdict f) = some (.vdict f)) := by
  refine ⟨?_, ?_, ?_, ?_⟩
  · intro k f hf
    simp [extractByKey, truthy, hf]
  · intro k items hitems
    simp [extractByKey, truthy, hitems]
  · intro x xs
    simp [extractSearchData, truthy]
  · intro f hf
    simp [extractSearchData, truthy, hf]

/-- C5 witness: the amended behaviour at concrete inputs. -/
theorem stage_extraction_amended_witness :
    extractByKey "summary" (.vdict [("a", .vstr "1")]) =
        some (.vdict [("a", .vstr "1")]) ∧
    extractByKey "summary"
        (.vlist [.vstr "x", .vdict [("summary", .vstr "s")]]) =
      [Value.vstr "x", Value.vdict [("summary", Value.vstr "s")]].find?
        (fun it => isDict it && hasKey "summary" it) ∧
    extractSearchData (.vlist [Value.vstr "x"]) =
      (if isDict (Value.vstr "x") then some (Value.vstr "x") else none) ∧
    extractSearchData (.vdict [("a", .vstr "1")]) =
      some (.vdict [("a", .vstr "1")]) :=
  ⟨stage_extraction_amended.1 "summary" _ (List.cons_ne_nil _ _),
   stage_extraction_amended.2.1 "summary" _ (List.cons_ne_nil _ _),
   stage_extraction_amended.2.2.1 _ _,
   stage_extraction_amended.2.2.2 _ (List.cons_ne_nil _ _)⟩

/-! ## C2: the Image Resolver returns exactly 2 images -/

/-- C2: for every input text, every provider-availability combination
and every provider outcome (including raised requests, modelled by the
oracles returning `none`), `_find_financial_images` returns exactly 2
image descriptors. -/
theorem findFinancialImages_length_two
    (serperKey tavilyKey : Bool)
    (serperApi : String → Option (List SerperImg))
    (tavilyApi : String → Option (List TavilyRes))
    (summary_text : String) :
    (findFinancialImages serperKey tavilyKey serperApi tavilyApi
      summary_text).length = 2 := by
  unfold findFinancialImages
  exact topUp_take_two _

/-! ## C3: URL validity of the returned descriptors -/

/-- C3 (counterexample): with no provider configured the resolver
returns the static fallback descriptors, and those fail
`_is_valid_image_url` (their URLs neither end in a known image
extension nor contain the substring "image"), so not every returned
descriptor satisfies the URL-validity invariant. -/
theorem fallback_descriptor_invalid_counterexample :
    (findFinancialImages false false (fun _ => none) (fun _ => none)
        "market news").all (fun img => isValidImageUrl img.url) = false := by
  decide

/-- C3 (amended): every provider-harvested descriptor satisfies the
URL-validity invariant (the search loops filter on
`_is_valid_image_url`), and the two static fallback descriptors parse
as absolute URLs (non-empty scheme and netloc) but fail the
extension-or-"image" condition, hence fail the invariant. -/
theorem image_url_validity_amended :
    (∀ (api : String → Option (List SerperImg)) (terms : List String)
        (img : ImageD), img ∈ searchImagesSerper api terms →
      isValidImageUrl img.url = true) ∧
    (∀ (api : String → Option (List TavilyRes)) (terms : List String)
        (img : ImageD), img ∈ searchImagesTavily api terms →
      isValidImageUrl img.url = true) ∧
    (∀ img ∈ getFallbackImages,
      (urlSchemeSplit img.url.data).1 ≠ [] ∧
      urlNetloc (urlSchemeSplit img.url.data).2 ≠ [] ∧
      isValidImageUrl img.url = false) := by
  refine ⟨?_, ?_, ?_⟩
  · intro api terms img hmem
    exact serperLoop_valid api _ [] (by intro i hi; simp at hi) img hmem
  · intro api terms img hmem
    exact tavilyLoop_valid api _ [] (by intro i hi; simp at hi) img hmem
  · decide

/-- C3 witness: the amended statement at concrete inputs: a harvested
descriptor with a `.png` URL is valid, and the first static fallback
descriptor parses absolutely yet fails the invariant. -/
theorem image_url_validity_amended_witness :
    isValidImageUrl
        (ImageD.mk "http://a.com/b.png" "chart" "Serper" "trading").url = true ∧
    ((urlSchemeSplit
        ("https://via.placeholder.com/600x400/0066cc/ffffff?text=Stock+Market+Chart" : String).data).1 ≠ [] ∧
      urlNetloc (urlSchemeSplit
        ("https://via.placeholder.com/600x400/0066cc/ffffff?text=Stock+Market+Chart" : String).data).2 ≠ [] ∧
      isValidImageUrl
        "https://via.placeholder.com/600x400/0066cc/ffffff?text=Stock+Market+Chart" = false) :=
  ⟨image_url_validity_amended.1 (fun _ => some [⟨"http://a.com/b.png", some "chart"⟩])
      ["trading"] _ (by decide),
   image_url_validity_amended.2.2
     ⟨"https://via.placeholder.com/600x400/0066cc/ffffff?text=Stock+Market+Chart",
      "Stock Market Performance Chart", "Fallback", "stock market"⟩ (by decide)⟩

/-! ## C10: image insertion on single-paragraph summaries -/

/-- When the separator occurs nowhere in `s`, `str.split` returns the
single segment `[s]`. -/
lemma splitOnAux_of_not_sub (sep : List Char) :
    ∀ (n : Nat) (s : List Char), isSubList sep s = false →
      splitOnAux sep n s = [s] := by
  intro n
  induction n with
  | zero =>
    intro s _
    cases s with
    | nil => rfl
    | cons c rest => rfl
  | succ n ih =>
    intro s hs
    cases s with
    | nil => rfl
    | cons c rest =>
      have hnp : sep.isPrefixOf (c :: rest) = false := by
        cases hp : sep.isPrefixOf (c :: rest) with
        | false => rfl
        | true => simp [isSubList, hp] at hs
      have hrest : isSubList sep rest = false := by
        cases hr : isSubList sep rest with
        | false => rfl
        | true => simp [isSubList, hr] at hs
      simp only [splitOnAux]
      rw [if_neg (by simp [hnp])]
      rw [ih rest hrest]
      rfl

/-- `str.split(sep)` on a separator-free string is the whole string. -/
lemma pySplitOn_of_not_sub (sep s : List Char) (h : isSubList sep s = false) :
    pySplitOn sep s = [s] :=
  splitOnAux_of_not_sub sep s.length s h

/-- C10: on a summary with no blank-line separator,
`_insert_images_in_summary` returns the text unchanged for an empty
images list, and otherwise appends exactly the first image's marker
block after one blank-line separator: the second image's marker is
never inserted, because the paragraph list after the first insertion
has 2 < 3 entries (the source requires at least 3). -/
theorem insertImages_single_paragraph
    (summary_text : String) (images : List ImageD)
    (hsingle : isSubList "\n\n".data summary_text.data = false) :
    (images = [] → insertImagesInSummary summary_text images = summary_text) ∧
    (∀ img1 rest, images = img1 :: rest →
      insertImagesInSummary summary_text images =
        summary_text ++ "\n\n" ++ imageText img1) ∧
    (pySplitOn "\n\n".data summary_text.data).length = 1 := by
  have hsplit : pySplitOn "\n\n".data summary_text.data = [summary_text.data] :=
    pySplitOn_of_not_sub _ _ hsingle
  refine ⟨?_, ?_, by rw [hsplit]; rfl⟩
  · intro h
    rw [h]
    rfl
  · intro img1 rest h
    subst h
    unfold insertImagesInSummary
    rw [hsplit]
    cases rest with
    | nil => rfl
    | cons img2 rest2 => rfl

/-- C10 witness: the property at a concrete single-paragraph summary
with zero and one image. -/
theorem insertImages_single_paragraph_witness :
    insertImagesInSummary "hello" [] = "hello" ∧
    insertImagesInSummary "hello" [⟨"u", "T", "S", "q"⟩] =
      "hello" ++ "\n\n" ++ imageText ⟨"u", "T", "S", "q"⟩ :=
  ⟨(insertImages_single_paragraph "hello" [] (by decide)).1 rfl,
   (insertImages_single_paragraph "hello" [⟨"u", "T", "S", "q"⟩]
      (by decide)).2.1 _ _ rfl⟩

/-! ## Fallback-trigger lemmas shared by the stage claims -/

/-- A list context with no record containing the key extracts to `None`. -/
lemma extractByKey_vlist_none (k : String) (items : List Value)
    (h : ∀ it ∈ items, (isDict it && hasKey k it) = false) :
    extractByKey k (.vlist items) = none := by
  cases items with
  | nil => rfl
  | cons x xs =>
    have htr : truthy (.vlist (x :: xs)) = true := by simp [truthy]
    unfold extractByKey
    rw [if_neg (by simp [htr])]
    show List.find? (fun it => isDict it && hasKey k it) (x :: xs) = none
    rw [List.find?_eq_none]
    intro it hit
    simp [h it hit]

/-- `format_content` falls back when extraction yields `None`. -/
lemma formatContent_fallback_of_none (serperKey tavilyKey : Bool)
    (serperApi : String → Option (List SerperImg))
    (tavilyApi : String → Option (List TavilyRes)) (ctx : Value)
    (h : extractSummaryData ctx = none) :
    formatContent serperKey tavilyKey serperApi tavilyApi ctx =
      fallbackFormatted := by
  unfold formatContent
  rw [h]

/-- `create_summary` falls back when extraction yields `None`. -/
lemma createSummary_fallback_of_none (llm : String → Option String)
    (ctx : Value) (h : extractSearchData ctx = none) :
    createSummary llm ctx = fallbackSummary := by
  unfold createSummary
  rw [h]

/-- `translate_content` falls back when extraction yields `None`. -/
lemma translateContent_fallback_of_none
    (translator : String → String → Option String) (ctx : Value)
    (h : extractFormattedData ctx = none) :
    translateContent translator ctx = fallbackTranslations := by
  unfold translateContent
  rw [h]

/-- `distribute_report` falls back when extraction yields `None`. -/
lemma distributeReport_fallback_of_none (pdfGen : Option String)
    (hasCreds : Bool) (today : String)
    (msgApi : String → Option (Bool × String)) (imgApi : ImageD → Bool)
    (ctx : Value) (h : extractFormattedData ctx = none) :
    distributeReport pdfGen hasCreds today msgApi imgApi ctx =
      fallbackDistribution := by
  unfold distributeReport
  rw [h]

/-- `distribute_report` falls back when the extracted record is falsy. -/
lemma distributeReport_fallback_of_falsy (pdfGen : Option String)
    (hasCreds : Bool) (today : String)
    (msgApi : String → Option (Bool × String)) (imgApi : ImageD → Bool)
    (ctx d : Value) (hext : extractFormattedData ctx = some d)
    (htr : truthy d = false) :
    distributeReport pdfGen hasCreds today msgApi imgApi ctx =
      fallbackDistribution := by
  unfold distributeReport
  rw [hext]
  simp [htr]

/-- On the main path `distribute_report` reports the PDF outcome and
the Telegram outcome in independent fields. -/
lemma distributeReport_main (pdfGen : Option String) (hasCreds : Bool)
    (today : String) (msgApi : String → Option (Bool × String))
    (imgApi : ImageD → Bool) (ctx d : Value)
    (hext : extractFormattedData ctx = some d) (htr : truthy d = true) :
    distributeReport pdfGen hasCreds today msgApi imgApi ctx =
      { pdf_created := (createPdfReport pdfGen).1
        pdf_path := (createPdfReport pdfGen).2
        telegram_sent := (sendToTelegram hasCreds today msgApi imgApi d).1
        telegram_message_id := (sendToTelegram hasCreds today msgApi imgApi d).2
        content_type := "English-only"
        images_included := (getImgs d).length
        status := none
        error := none
        message := none } := by
  unfold distributeReport
  rw [hext]
  simp [htr]

/-! ## C8: translation-stage fallback bundle -/

/-- C8 (counterexample): a non-empty record context lacking
`formatted_summary` is *not* routed to the fallback bundle —
`_extract_formatted_data` returns any dict unconditionally, so the
stage translates the empty string instead: with the LLM raising, the
hindi entry carries the per-language service-unavailable notice, not
the fixed "No content available for translation." string. -/
theorem translation_keyless_record_counterexample :
    translateContent (fun _ _ => none) (.vdict [("x", .vstr "1")]) ≠
        fallbackTranslations ∧
    ((translateContent (fun _ _ => none)
        (.vdict [("x", .vstr "1")])).translations.lookup "hindi").map
          (fun e => e.content) =
      some "वित्तीय बाजार सारांश - अनुवाद सेवा अनुपलब्ध\n\n[Original Content]\n" := by
  constructor
  · decide
  · decide

/-- C8 (amended): the fallback bundle — every configured language
(hindi, arabic, hebrew, in order) present with content exactly
"No content available for translation.", empty images and status
"fallback" — is returned exactly when the context is `None`, an empty
record, an empty list, or a list containing no record with
`formatted_summary`; a non-empty record without the key is translated
(with empty source content) instead. -/
theorem translation_fallback_amended :
    (∀ p ∈ fallbackTranslations.translations,
      p.2.content = "No content available for translation." ∧
      p.2.images = [] ∧ p.2.status = some "fallback") ∧
    fallbackTranslations.translations.map Prod.fst =
      ["hindi", "arabic", "hebrew"] ∧
    (∀ translator : String → String → Option String,
      translateContent translator .vnone = fallbackTranslations ∧
      translateContent translator (.vdict []) = fallbackTranslations ∧
      translateContent translator (.vlist []) = fallbackTranslations) ∧
    (∀ (translator : String → String → Option String) (items : List Value),
      (∀ it ∈ items, (isDict it && hasKey "formatted_summary" it) = false) →
      translateContent translator (.vlist items) = fallbackTranslations) := by
  refine ⟨by decide, by decide, ?_, ?_⟩
  · intro translator
    exact ⟨translateContent_fallback_of_none _ _ rfl,
           translateContent_fallback_of_none _ _ rfl,
           translateContent_fallback_of_none _ _ rfl⟩
  · intro translator items h
    exact translateContent_fallback_of_none _ _
      (extractByKey_vlist_none _ _ h)

/-- C8 witness: the amended statement at concrete inputs — the hindi
entry of the fallback bundle, and a list context holding only a
string. -/
theorem translation_fallback_amended_witness :
    ((("hindi",
        TranslationEntry.mk "हिन्दी" "No content available for translation."
          [] (some "fallback") none) : String × TranslationEntry).2.content =
        "No content available for translation." ∧
      (("hindi",
        TranslationEntry.mk "हिन्दी" "No content available for translation."
          [] (some "fallback") none) : String × TranslationEntry).2.images = [] ∧
      (("hindi",
        TranslationEntry.mk "हिन्दी" "No content available for translation."
          [] (some "fallback") none) : String × TranslationEntry).2.status =
        some "fallback") ∧
    translateContent (fun _ _ => none) (.vlist [.vstr "a"]) =
      fallbackTranslations :=
  ⟨translation_fallback_amended.1 _ (by decide),
   translation_fallback_amended.2.2.2 _ _ (by decide)⟩

/-! ## C9: distribution success flag -/

/-- C9: on the main path the reported `telegram_sent` flag is exactly
the success of the main text-message send (with credentials, exactly
`_send_telegram_message`'s success on the built message), the PDF
outcome is reported in the separate `pdf_created` / `pdf_path` fields,
the PDF outcome never influences `telegram_sent`, and the per-image
send outcomes never influence the stage result at all. -/
theorem distribution_success_iff_message_send :
    (∀ (pdfGen : Option String) (hasCreds : Bool) (today : String)
        (msgApi : String → Option (Bool × String)) (imgApi : ImageD → Bool)
        (ctx d : Value),
      extractFormattedData ctx = some d → truthy d = true →
      (distributeReport pdfGen hasCreds today msgApi imgApi ctx).telegram_sent
          = (sendToTelegram hasCreds today msgApi imgApi d).1 ∧
      (hasCreds = true →
        (distributeReport pdfGen hasCreds today msgApi imgApi ctx).telegram_sent
          = (sendTelegramMessage msgApi
              (telegramMessage today (getStrD d "formatted_summary" ""))).1) ∧
      (distributeReport pdfGen hasCreds today msgApi imgApi ctx).pdf_created
          = (createPdfReport pdfGen).1 ∧
      (distributeReport pdfGen hasCreds today msgApi imgApi ctx).pdf_path
          = (createPdfReport pdfGen).2) ∧
    (∀ (pdfGen pdfGen' : Option String) (hasCreds : Bool) (today : String)
        (msgApi : String → Option (Bool × String)) (imgApi : ImageD → Bool)
        (ctx : Value),
      (distributeReport pdfGen hasCreds today msgApi imgApi ctx).telegram_sent
        = (distributeReport pdfGen' hasCreds today msgApi imgApi ctx).telegram_sent) ∧
    (∀ (pdfGen : Option String) (hasCreds : Bool) (today : String)
        (msgApi : String → Option (Bool × String))
        (imgApi imgApi' : ImageD → Bool) (ctx : Value),
      distributeReport pdfGen hasCreds today msgApi imgApi ctx
        = distributeReport pdfGen hasCreds today msgApi imgApi' ctx) := by
  refine ⟨?_, ?_, ?_⟩
  · intro pdfGen hasCreds today msgApi imgApi ctx d hext htr
    rw [distributeReport_main pdfGen hasCreds today msgApi imgApi ctx d hext htr]
    refine ⟨rfl, ?_, rfl, rfl⟩
    intro hc
    subst hc
    simp [sendToTelegram]
  · intro pdfGen pdfGen' hasCreds today msgApi imgApi ctx
    cases hext : extractFormattedData ctx with
    | none =>
      rw [distributeReport_fallback_of_none pdfGen hasCreds today msgApi imgApi ctx hext,
        distributeReport_fallback_of_none pdfGen' hasCreds today msgApi imgApi ctx hext]
    | some d =>
      cases htr : truthy d with
      | true =>
        rw [distributeReport_main pdfGen hasCreds today msgApi imgApi ctx d hext htr,
          distributeReport_main pdfGen' hasCreds today msgApi imgApi ctx d hext htr]
      | false =>
        rw [distributeReport_fallback_of_falsy pdfGen hasCreds today msgApi imgApi ctx d hext htr,
          distributeReport_fallback_of_falsy pdfGen' hasCreds today msgApi imgApi ctx d hext htr]
  · intro pdfGen hasCreds today msgApi imgApi imgApi' ctx
    rfl

/-- C9 witness: the main-path statement at a concrete context and
concrete oracles. -/
theorem distribution_success_iff_message_send_witness :
    (distributeReport (some "out.pdf") true "Jan 1"
        (fun _ => some (true, "42")) (fun _ => true)
        (.vdict [("formatted_summary", .vstr "hi")])).telegram_sent
      = (sendToTelegram true "Jan 1" (fun _ => some (true, "42"))
          (fun _ => true) (.vdict [("formatted_summary", .vstr "hi")])).1 ∧
    (distributeReport (some "out.pdf") true "Jan 1"
        (fun _ => some (true, "42")) (fun _ => true)
        (.vdict [("formatted_summary", .vstr "hi")])).telegram_sent
      = (sendTelegramMessage (fun _ => some (true, "42"))
          (telegramMessage "Jan 1"
            (getStrD (.vdict [("formatted_summary", .vstr "hi")])
              "formatted_summary" ""))).1 ∧
    (distributeReport (some "out.pdf") true "Jan 1"
        (fun _ => some (true, "42")) (fun _ => true)
        (.vdict [("formatted_summary", .vstr "hi")])).pdf_created
      = (createPdfReport (some "out.pdf")).1 ∧
    (distributeReport (some "out.pdf") true "Jan 1"
        (fun _ => some (true, "42")) (fun _ => true)
        (.vdict [("formatted_summary", .vstr "hi")])).pdf_path
      = (createPdfReport (some "out.pdf")).2 :=
  have h := distribution_success_iff_message_send.1 (some "out.pdf") true
    "Jan 1" (fun _ => some (true, "42")) (fun _ => true)
    (.vdict [("formatted_summary", .vstr "hi")])
    (.vdict [("formatted_summary", .vstr "hi")]) rfl rfl
  ⟨h.1, h.2.1 rfl, h.2.2.1, h.2.2.2⟩

/-! ## C1: stage totality and fallback behaviour -/

/-- `create_summary` falls back when the extracted record is falsy. -/
lemma createSummary_fallback_of_falsy (llm : String → Option String)
    (ctx d : Value) (hext : extractSearchData ctx = some d)
    (htr : truthy d = false) :
    createSummary llm ctx = fallbackSummary := by
  unfold createSummary
  rw [hext]
  simp [htr]

/-- The summary extractor returns `None` on a list headed by a
non-record. -/
lemma extractSearchData_vlist_nondict (v : Value) (xs : List Value)
    (h : isDict v = false) :
    extractSearchData (.vlist (v :: xs)) = none := by
  unfold extractSearchData
  rw [if_neg (by simp [truthy])]
  simp [h]

/-- The summary extractor returns the head of a list when it is a
record, even an empty one. -/
lemma extractSearchData_vlist_emptyDict (xs : List Value) :
    extractSearchData (.vlist (.vdict [] :: xs)) = some (.vdict []) := by
  unfold extractSearchData
  rw [if_neg (by simp [truthy])]
  simp [isDict]

/-- C1 (counterexample): the claim lists "a list containing no record
with the required key" among the inputs whose required upstream data is
absent, promising the stage-specific fallback payload; but
`SummaryAgent._extract_search_data` only inspects the *first* list
element, so `create_summary` on `[{"x": "1"}]` (a list containing no
record with `news_data`) builds a normal payload from empty news data
instead of returning `_create_fallback_summary` (its `status` field is
absent, not "fallback"). -/
theorem summary_stage_list_no_key_counterexample :
    createSummary (fun _ => none) (.vlist [.vdict [("x", .vstr "1")]]) ≠
        fallbackSummary ∧
    (createSummary (fun _ => none)
        (.vlist [.vdict [("x", .vstr "1")]])).status = none ∧
    fallbackSummary.status = some "fallback" := by
  refine ⟨by decide, by decide, rfl⟩

/-- C1 (amended): every stage entry point is a total function of its
context (immediate in this embedding, where each stage is a Lean
function over arbitrary `Value` contexts and oracle outcomes) and the
fallback payload is returned as follows: all four stages fall back on
`None`, an empty record and an empty list; `format_content`,
`translate_content` and `distribute_report` also fall back on any list
containing no record with their required key; `create_summary` falls
back on a list whose first element is an empty record or not a record,
but a list whose first element is a non-empty record lacking
`news_data` produces a normal payload built from empty news data. -/
theorem stage_totality_fallback_amended :
    ∀ (llm : String → Option String) (serperKey tavilyKey : Bool)
      (serperApi : String → Option (List SerperImg))
      (tavilyApi : String → Option (List TavilyRes))
      (translator : String → String → Option String)
      (pdfGen : Option String) (hasCreds : Bool) (today : String)
      (msgApi : String → Option (Bool × String)) (imgApi : ImageD → Bool),
    (∀ ctx : Value, (ctx = .vnone ∨ ctx = .vdict [] ∨ ctx = .vlist []) →
      createSummary llm ctx = fallbackSummary ∧
      formatContent serperKey tavilyKey serperApi tavilyApi ctx =
        fallbackFormatted ∧
      translateContent translator ctx = fallbackTranslations ∧
      distributeReport pdfGen hasCreds today msgApi imgApi ctx =
        fallbackDistribution) ∧
    (∀ items : List Value,
      (∀ it ∈ items, (isDict it && hasKey "summary" it) = false) →
      formatContent serperKey tavilyKey serperApi tavilyApi (.vlist items) =
        fallbackFormatted) ∧
    (∀ items : List Value,
      (∀ it ∈ items, (isDict it && hasKey "formatted_summary" it) = false) →
      translateContent translator (.vlist items) = fallbackTranslations ∧
      distributeReport pdfGen hasCreds today msgApi imgApi (.vlist items) =
        fallbackDistribution) ∧
    (∀ xs : List Value,
      createSummary llm (.vlist (.vdict [] :: xs)) = fallbackSummary) ∧
    (∀ (v : Value) (xs : List Value), isDict v = false →
      createSummary llm (.vlist (v :: xs)) = fallbackSummary) := by
  intro llm serperKey tavilyKey serperApi tavilyApi translator pdfGen
    hasCreds today msgApi imgApi
  refine ⟨?_, ?_, ?_, ?_, ?_⟩
  · intro ctx h
    rcases h with rfl | rfl | rfl <;>
      exact ⟨createSummary_fallback_of_none _ _ rfl,
             formatContent_fallback_of_none _ _ _ _ _ rfl,
             translateContent_fallback_of_none _ _ rfl,
             distributeReport_fallback_of_none _ _ _ _ _ _ rfl⟩
  · intro items h
    exact formatContent_fallback_of_none _ _ _ _ _
      (extractByKey_vlist_none _ _ h)
  · intro items h
    exact ⟨translateContent_fallback_of_none _ _
             (extractByKey_vlist_none _ _ h),
           distributeReport_fallback_of_none _ _ _ _ _ _
             (extractByKey_vlist_none _ _ h)⟩
  · intro xs
    exact createSummary_fallback_of_falsy _ _ _
      (extractSearchData_vlist_emptyDict xs) rfl
  · intro v xs h
    exact createSummary_fallback_of_none _ _
      (extractSearchData_vlist_nondict v xs h)

/-- C1 witness: the amended fallback behaviour at concrete contexts and
oracles. -/
theorem stage_totality_fallback_amended_witness :
    (createSummary (fun _ => none) .vnone = fallbackSummary ∧
      formatContent false false (fun _ => none) (fun _ => none) .vnone =
        fallbackFormatted ∧
      translateContent (fun _ _ => none) .vnone = fallbackTranslations ∧
      distributeReport none false "d" (fun _ => none) (fun _ => false)
        .vnone = fallbackDistribution) ∧
    formatContent false false (fun _ => none) (fun _ => none)
        (.vlist [.vstr "a"]) = fallbackFormatted ∧
    (translateContent (fun _ _ => none) (.vlist [.vstr "a"]) =
        fallbackTranslations ∧
      distributeReport none false "d" (fun _ => none) (fun _ => false)
        (.vlist [.vstr "a"]) = fallbackDistribution) ∧
    createSummary (fun _ => none) (.vlist [.vdict []]) = fallbackSummary ∧
    createSummary (fun _ => none) (.vlist [.vstr "a"]) = fallbackSummary :=
  have h := stage_totality_fallback_amended (fun _ => none) false false
    (fun _ => none) (fun _ => none) (fun _ _ => none) none false "d"
    (fun _ => none) (fun _ => false)
  ⟨h.1 _ (Or.inl rfl), h.2.1 _ (by decide), h.2.2.1 _ (by decide),
   h.2.2.2.1 [], h.2.2.2.2 _ [] rfl⟩

/-! ## C6: round-trip of the chart-marker split -/

/-- A successful marker-body scan decomposes its input. -/
lemma scanChartBody_eq : ∀ (s body r : List Char),
    scanChartBody s = some (body, r) → s = body ++ (']' :: r) := by
  intro s
  induction s with
  | nil =>
    intro body r h
    exact absurd h (by simp [scanChartBody])
  | cons c rest ih =>
    intro body r h
    unfold scanChartBody at h
    split at h
    · next hc =>
      simp only [Option.some.injEq, Prod.mk.injEq] at h
      obtain ⟨h1, h2⟩ := h
      subst h1
      subst h2
      subst hc
      rfl
    · split at h
      · exact absurd h (by simp)
      · rcases Option.map_eq_some'.mp h with ⟨⟨b2, r2⟩, hscan, hf⟩
        simp only [Prod.mk.injEq] at hf
        obtain ⟨h1, h2⟩ := hf
        subst h1
        subst h2
        rw [List.cons_append]
        rw [← ih _ _ hscan]

/-- Concatenating the raw split segments restores the input. -/
lemma flatten_chartSplitAux : ∀ (n : Nat) (cur s : List Char),
    (chartSplitAux n cur s).flatten = cur ++ s := by
  intro n
  induction n with
  | zero =>
    intro cur s
    simp [chartSplitAux]
  | succ n ih =>
    intro cur s
    cases s with
    | nil => simp [chartSplitAux]
    | cons c rest =>
      unfold chartSplitAux
      split
      · next hpre =>
        cases hscan : scanChartBody ((c :: rest).drop 7) with
        | none =>
          show (chartSplitAux n (cur ++ [c]) rest).flatten = cur ++ c :: rest
          rw [ih]
          simp
        | some p =>
          obtain ⟨body, r⟩ := p
          show (cur :: ("[Chart:".data ++ body ++ [']']) ::
              chartSplitAux n [] r).flatten = cur ++ c :: rest
          have hdecomp : (c :: rest).drop 7 = body ++ (']' :: r) :=
            scanChartBody_eq _ _ _ hscan
          have hp : "[Chart:".data <+: (c :: rest) := by
            exact List.isPrefixOf_iff_prefix.mp hpre
          obtain ⟨t, ht⟩ := hp
          have ht7 : t = (c :: rest).drop 7 := by
            rw [← ht]
            exact (List.drop_left "[Chart:".data t).symm
          rw [List.flatten_cons, List.flatten_cons, ih]
          rw [← ht, ht7, hdecomp]
          simp
      · rw [ih]
        simp

/-- Dropping only genuinely empty segments preserves concatenation. -/
lemma flatten_filter_of_empty (l : List (List Char))
    (h : ∀ p ∈ l, (stripChars p).isEmpty = true → p = []) :
    (l.filter (fun p => !(stripChars p).isEmpty)).flatten = l.flatten := by
  induction l with
  | nil => rfl
  | cons x xs ih =>
    have ihh := ih (fun p hp he => h p (List.mem_cons_of_mem _ hp) he)
    rw [List.filter_cons]
    by_cases hx : (!(stripChars x).isEmpty) = true
    · rw [if_pos hx]
      rw [List.flatten_cons, List.flatten_cons, ihh]
    · rw [if_neg hx]
      have hxe : x = [] := by
        apply h x (List.mem_cons_self x xs)
        simpa using hx
      rw [List.flatten_cons, hxe, ihh]
      rfl

/-- C6 (counterexample): `_split_content_by_images` discards
whitespace-only segments (`if part.strip()`), so rejoining the returned
segments loses the space between two adjacent markers: the round trip
fails on `"[Chart: A] [Chart: B]"`. -/
theorem chart_split_roundtrip_counterexample :
    joinSegments (splitContentByImages "[Chart: A] [Chart: B]") ≠
        "[Chart: A] [Chart: B]" ∧
    joinSegments (splitContentByImages "[Chart: A] [Chart: B]") =
      "[Chart: A][Chart: B]" := by
  exact ⟨by decide, by decide⟩

/-- C6 (amended): for every string in which no raw split segment is
whitespace-only-but-non-empty (the only segments the `part.strip()`
filter can drop), concatenating the segments returned by
`_split_content_by_images` in order reconstructs the original string
exactly. -/
theorem chart_split_roundtrip_amended (content : String)
    (h : ∀ p ∈ chartSplitRaw content, (stripChars p).isEmpty = true → p = []) :
    joinSegments (splitContentByImages content) = content := by
  unfold joinSegments splitContentByImages
  rw [List.map_map]
  have hid : ∀ l : List (List Char), l.map (String.data ∘ String.mk) = l := by
    intro l
    induction l with
    | nil => rfl
    | cons x xs ih => simp only [List.map_cons, ih, Function.comp_apply]
  rw [hid, flatten_filter_of_empty _ h]
  unfold chartSplitRaw
  rw [flatten_chartSplitAux]
  rfl

/-- C6 witness: the amended round trip at a concrete marker-bearing
string. -/
theorem chart_split_roundtrip_amended_witness :
    joinSegments (splitContentByImages "Hello [Chart: X] world") =
      "Hello [Chart: X] world" :=
  chart_split_roundtrip_amended _ (by decide)

/-! ## C7: the document-assembly scenario -/

/-- C7 (counterexample): the scenario text assembles into *3* prose
body paragraphs plus 1 inline chart placeholder, not 2 plus 1: the URL
line under the marker survives as its own stripped paragraph
(`"http://x/img.png"`), because the marker regex captures only
`[Chart: ...]` and the blank-line split of the following segment
yields the URL line as a separate non-empty paragraph. -/
theorem assembler_scenario_counterexample :
    ((addFormattedContent (fun _ => false) scenarioText []).filter
        isPara).length = 3 ∧
    ((addFormattedContent (fun _ => false) scenarioText []).filter
        isPlaceholder).length = 1 := by
  exact ⟨by decide, by decide⟩

/-- C7 (amended): for every fetch oracle, assembling the scenario text
with an empty images list produces, in order, the first prose
paragraph, the inline chart placeholder, the URL line as a third prose
paragraph, and the second prose paragraph — 3 body paragraphs plus 1
placeholder. -/
theorem assembler_scenario_amended (fetch : String → Bool) :
    (addFormattedContent fetch scenarioText []).filter
        (fun e => isPara e || isPlaceholder e) =
      [.para "S&P 500 fell 2% today.",
       .italic "<i>[Chart: S&P 500 Daily]</i>",
       .para "http://x/img.png",
       .para "Markets closed early."] := by
  rfl

/-! ## C4: the 500-word summary cap -/

/-- Words produced by `str.split()` are non-empty and whitespace-free. -/
lemma wordsAux_all_words : ∀ (s cur : List Char),
    (∀ c ∈ cur, pyIsSpace c = false) →
    ∀ w ∈ wordsAux cur s, w ≠ [] ∧ ∀ c ∈ w, pyIsSpace c = false := by
  intro s
  induction s with
  | nil =>
    intro cur hcur w hw
    unfold wordsAux at hw
    split at hw
    · simp at hw
    · next hne =>
      rw [List.mem_singleton] at hw
      subst hw
      refine ⟨by simpa using hne, ?_⟩
      intro c hc
      exact hcur c (List.mem_reverse.mp hc)
  | cons c rest ih =>
    intro cur hcur w hw
    unfold wordsAux at hw
    split at hw
    · next hsp =>
      split at hw
      · exact ih [] (by simp) w hw
      · next hne =>
        rcases List.mem_cons.mp hw with hw | hw
        · subst hw
          refine ⟨by simpa using hne, ?_⟩
          intro a ha
          exact hcur a (List.mem_reverse.mp ha)
        · exact ih [] (by simp) w hw
    · next hsp =>
      refine ih (c :: cur) ?_ w hw
      intro a ha
      rcases List.mem_cons.mp ha with rfl | ha
      · simpa using hsp
      · exact hcur a ha

/-- `str.split()` of a whitespace-free non-empty run is that run
(with the pending word prefixed). -/
lemma wordsAux_nospace_run : ∀ (w cur : List Char),
    (∀ c ∈ w, pyIsSpace c = false) → cur.reverse ++ w ≠ [] →
    wordsAux cur w = [cur.reverse ++ w] := by
  intro w
  induction w with
  | nil =>
    intro cur _ hne
    rw [List.append_nil] at hne
    unfold wordsAux
    rw [if_neg (by simpa using hne)]
    rw [List.append_nil]
  | cons c w ih =>
    intro cur hw hne
    have hc : pyIsSpace c = false := hw c (List.mem_cons_self c w)
    unfold wordsAux
    rw [if_neg (by simp [hc])]
    rw [ih (c :: cur) (fun a ha => hw a (List.mem_cons_of_mem c ha))
      (by simp)]
    simp

/-- `str.split()` consumes one whitespace-free word up to a space and
recurses past it. -/
lemma wordsAux_word_sep : ∀ (w t cur : List Char),
    (∀ c ∈ w, pyIsSpace c = false) → cur.reverse ++ w ≠ [] →
    wordsAux cur (w ++ ' ' :: t) = (cur.reverse ++ w) :: wordsAux [] t := by
  intro w
  induction w with
  | nil =>
    intro t cur _ hne
    rw [List.append_nil] at hne
    show wordsAux cur (' ' :: t) = (cur.reverse ++ []) :: wordsAux [] t
    rw [List.append_nil]
    conv_lhs => unfold wordsAux
    rw [if_pos (by simp [pyIsSpace])]
    rw [if_neg (by simpa using hne)]
  | cons c w ih =>
    intro t cur hw hne
    have hc : pyIsSpace c = false := hw c (List.mem_cons_self c w)
    show wordsAux cur (c :: (w ++ ' ' :: t)) =
      (cur.reverse ++ c :: w) :: wordsAux [] t
    conv_lhs => unfold wordsAux
    rw [if_neg (by simp [hc])]
    rw [ih t (c :: cur) (fun a ha => hw a (List.mem_cons_of_mem c ha))
      (by simp)]
    simp [List.reverse_cons, List.append_assoc]

/-- Splitting non-empty whitespace-free words joined by single spaces,
with a non-empty whitespace-free tail appended, yields exactly one word
per joined word (the tail merges into the last one). -/
lemma pySplitWs_joinSpace_tail : ∀ (ws : List (List Char)) (tail : List Char),
    (∀ w ∈ ws, w ≠ [] ∧ ∀ c ∈ w, pyIsSpace c = false) →
    tail ≠ [] → (∀ c ∈ tail, pyIsSpace c = false) → ws ≠ [] →
    (pySplitWs (joinSpace ws ++ tail)).length = ws.length := by
  intro ws
  induction ws with
  | nil => intro tail _ _ _ h; exact absurd rfl h
  | cons w ws ih =>
    intro tail hws htne htns _
    cases ws with
    | nil =>
      have hw := hws w (List.mem_cons_self w [])
      show (wordsAux [] (w ++ tail)).length = 1
      rw [wordsAux_nospace_run (w ++ tail) []
        (by
          intro c hc
          rcases List.mem_append.mp hc with hc | hc
          · exact hw.2 c hc
          · exact htns c hc)
        (by simp [hw.1])]
      rfl
    | cons w' ws' =>
      have hw := hws w (List.mem_cons_self w (w' :: ws'))
      have hjoin : joinSpace (w :: w' :: ws') ++ tail =
          w ++ ' ' :: (joinSpace (w' :: ws') ++ tail) := by
        show ((w ++ [' ']) ++ joinSpace (w' :: ws')) ++ tail = _
        simp
      unfold pySplitWs
      rw [hjoin]
      rw [wordsAux_word_sep w (joinSpace (w' :: ws') ++ tail) []
        hw.2 (by simp [hw.1])]
      have := ih tail (fun a ha => hws a (List.mem_cons_of_mem w ha))
        htne htns (List.cons_ne_nil w' ws')
      unfold pySplitWs at this
      rw [List.length_cons, this]
      simp

/-- The 500-word cap holds on every capped summary. -/
lemma wordCount_capWords_le (s : String) : wordCount (capWords s) ≤ 500 := by
  unfold capWords
  by_cases h : (pySplitWs s.data).length > 500
  · rw [if_pos h]
    have hcap : (pySplitWs (joinSpace ((pySplitWs s.data).take 500) ++
        "...".data)).length = 500 := by
      rw [pySplitWs_joinSpace_tail ((pySplitWs s.data).take 500) "...".data
        (fun w hw => wordsAux_all_words s.data [] (by simp) w
          (List.mem_of_mem_take hw))
        (by decide) (by decide)
        (by
          intro habs
          have := congrArg List.length habs
          simp only [List.length_take, List.length_nil] at this
          omega)]
      rw [List.length_take]
      omega
    exact le_of_eq hcap
  · rw [if_neg h]
    show (pySplitWs s.data).length ≤ 500
    omega

set_option maxRecDepth 8000 in
/-- C4 (counterexample): the trailing "..." marker is not equivalent to
truncation, and the cap does not hold on every input: (a) an LLM
response of 3 words already ending in "..." is returned unchanged, so
the output carries the marker although the generated text never
exceeded 500 words; (b) the manual fallback summary (used when the LLM
call raises) is not capped: on five 101-word headlines the stage
output exceeds 500 words. -/
theorem summary_ellipsis_cap_counterexample :
    pyEndsWith (generateLlmSummary (fun _ => some "Markets rallied today...")
        "nc") "..." = true ∧
    wordCount (pyStrip "Markets rallied today...") ≤ 500 ∧
    wordCount (generateLlmSummary (fun _ => none) bigNews) > 500 := by
  refine ⟨by decide, by decide, by decide⟩

/-- C4 (amended): on the LLM path the output summary always has at
most 500 words, and whenever the generated (stripped) text exceeds 500
words the output is exactly its first 500 words rejoined with single
spaces and suffixed with "..."; the marker is merely implied by
truncation (not equivalent to it), and the manual fallback path is not
capped. -/
theorem summary_word_cap_amended (raw news_content : String) :
    wordCount (generateLlmSummary (fun _ => some raw) news_content) ≤ 500 ∧
    (wordCount (pyStrip raw) > 500 →
      generateLlmSummary (fun _ => some raw) news_content =
        ⟨joinSpace ((pySplitWs (pyStrip raw).data).take 500) ++ "...".data⟩) := by
  constructor
  · exact wordCount_capWords_le (pyStrip raw)
  · intro h
    have h' : (pySplitWs (pyStrip raw).data).length > 500 := h
    show (if (pySplitWs (pyStrip raw).data).length > 500 then
        (⟨joinSpace (((pySplitWs (pyStrip raw).data)).take 500) ++
          "...".data⟩ : String)
      else pyStrip raw) = _
    rw [if_pos h']

set_option maxRecDepth 8000 in
/-- C4 witness: the amended statement at a 501-word LLM response, where
truncation occurs. -/
theorem summary_word_cap_amended_witness :
    wordCount (generateLlmSummary (fun _ => some longRun) "nc") ≤ 500 ∧
    generateLlmSummary (fun _ => some longRun) "nc" =
      ⟨joinSpace ((pySplitWs (pyStrip longRun).data).take 500) ++ "...".data⟩ :=
  ⟨(summary_word_cap_amended longRun "nc").1,
   (summary_word_cap_amended longRun "nc").2 (by decide)⟩

end FinPipe
